import Mathlib

/-!
Verification development for the Vitlos texture generator.

The development shallowly embeds the client-side state machine of the
application: the annotation data model (`Annot`), the generation state,
the service layer (`detectUVParts`, with generate/edit outcomes modelled
as `Except` values delivered by the external service), the coordinator
handlers of the top-level component (`handleFileUploadComplete`,
`handleGenerate`, `handleEdit`), and the canvas controller
(`handlePointerMove`, `addAnnot`).  Asynchronous handlers are embedded as
the end-to-end effect of one completed invocation: the external call
outcome is an explicit parameter, and each handler returns the new state
together with a flag telling whether an external call was issued.
-/

namespace Vitlos

/-- The annotation record of the source (`types.ts`): an id, percentage
coordinates x and y, and a free-form label.  Coordinates are embedded as
rationals. -/
structure Annot where
  id : String
  x : ℚ
  y : ℚ
  label : String
deriving DecidableEq

/-- The generation state of the source (`types.ts`): loading flag,
optional result image, optional error message. -/
structure GenerationState where
  isLoading : Bool
  resultImage : Option String
  error : Option String
deriving DecidableEq

/-- The top-level component state of the coordinator (`App`): uploaded
image, annotation list, the two text fields, the detecting flag and the
generation state. -/
structure AppState where
  uvImage : Option String
  annots : List Annot
  stylePrompt : String
  editPrompt : String
  isDetecting : Bool
  genState : GenerationState
deriving DecidableEq

/-- The initial state of the component. -/
def initState : AppState :=
  { uvImage := none
    annots := []
    stylePrompt := ""
    editPrompt := ""
    isDetecting := false
    genState := { isLoading := false, resultImage := none, error := none } }

/-- JavaScript `a || b` on strings used for error fallbacks: the empty
string is falsy, so the fallback replaces it. -/
def jsOrDefault (msg fallback : String) : String :=
  if msg = "" then fallback else msg

/-- JavaScript `String.prototype.trim`: drop leading and trailing
whitespace, embedded executably over the character list of the string. -/
def jsTrim (s : String) : String :=
  ⟨((s.data.dropWhile Char.isWhitespace).reverse.dropWhile Char.isWhitespace).reverse⟩

/-- One record of a well-formed detection response: a label plus
percentage coordinates, as constrained by the response schema. -/
structure DetectRecord where
  label : String
  x : ℚ
  y : ℚ
deriving DecidableEq

/-- The possible behaviours of the external service inside
`detectUVParts`: the call raises, the response carries no text, the text
is present but parsing or mapping throws, or a well-formed list of
records is delivered. -/
inductive DetectResponse where
  | raises : DetectResponse
  | noText : DetectResponse
  | badParse : DetectResponse
  | ok : List DetectRecord → DetectResponse
deriving DecidableEq

/-- The id string the detection mapper builds for the record at a given
index at a given timestamp. -/
def mkAutoId (t i : Nat) : String :=
  "auto-" ++ toString t ++ "-" ++ toString i

/-- `detectUVParts` of `services/gemini.ts`, as a function of the service
behaviour and of the current timestamp: every failure is caught and
yields the empty list; a well-formed response is mapped to one annotation
per record, each given a fresh synthetic id. -/
def detectUVParts (resp : DetectResponse) (t : Nat) : List Annot :=
  match resp with
  | .ok records =>
      records.enum.map (fun p => { id := mkAutoId t p.1, x := p.2.x, y := p.2.y, label := p.2.label })
  | _ => []

/-- The reset performed synchronously by the upload handler before
auto-detection starts: store the new image, empty the annotation list,
and clear `resultImage` and `error` of the generation state by spreading
the previous value. -/
def uploadReset (s : AppState) (base64 : String) : AppState :=
  { s with
    uvImage := some base64
    annots := []
    genState := { s.genState with resultImage := none, error := none } }

/-- The end-to-end effect of one completed `handleFileUpload` invocation:
the reset, then auto-detection whose result replaces the annotation list
only when it is non-empty, with the detecting flag cleared at the end. -/
def handleFileUploadComplete (s : AppState) (base64 : String) (resp : DetectResponse) (t : Nat) : AppState :=
  let s1 := { uploadReset s base64 with isDetecting := true }
  let parts := detectUVParts resp t
  let s2 := if parts.length > 0 then { s1 with annots := parts } else s1
  { s2 with isDetecting := false }

/-- The end-to-end effect of one completed `handleGenerate` invocation.
Returns the new state together with a flag telling whether the external
generation call was issued.  No image: no-op.  Blank style prompt:
validation error stored by spreading the previous generation state.
Otherwise the generation state passes through loading (clearing the
previous result) and ends in the success or failure shape determined by
the service outcome. -/
def handleGenerate (s : AppState) (outcome : Except String String) : AppState × Bool :=
  match s.uvImage with
  | none => (s, false)
  | some _ =>
      if jsTrim s.stylePrompt = "" then
        ({ s with genState := { s.genState with error := some "Пожалуйста, опишите стиль текстуры." } }, false)
      else
        match outcome with
        | .ok img =>
            ({ s with genState := { isLoading := false, resultImage := some img, error := none } }, true)
        | .error msg =>
            ({ s with genState := { isLoading := false, resultImage := none, error := some (jsOrDefault msg "Ошибка генерации") } }, true)

/-- The end-to-end effect of one completed `handleEdit` invocation.
Returns the new state together with a flag telling whether the external
edit call was issued.  Missing result image or blank instruction: no-op.
On success the result image is replaced and the edit prompt cleared; on
failure the previous generation state is spread, so the result image is
retained while the loading flag is cleared and the error stored. -/
def handleEdit (s : AppState) (outcome : Except String String) : AppState × Bool :=
  match s.genState.resultImage with
  | none => (s, false)
  | some r =>
      if jsTrim s.editPrompt = "" then (s, false)
      else
        match outcome with
        | .ok img =>
            ({ s with
                genState := { isLoading := false, resultImage := some img, error := none }
                editPrompt := "" }, true)
        | .error msg =>
            ({ s with
                genState := { isLoading := false, resultImage := some r,
                              error := some (jsOrDefault msg "Ошибка редактирования") } }, true)

/-- The bounding rectangle of the canvas container, in client
coordinates. -/
structure Rect where
  left : ℚ
  top : ℚ
  width : ℚ
  height : ℚ
deriving DecidableEq

/-- The per-axis clamp of the drag handler: pin the percentage value into
the interval from 0 to 100. -/
def clampPct (v : ℚ) : ℚ :=
  max 0 (min 100 v)

/-- The x normalisation of `handlePointerMove`: relative offset into the
rectangle, as a percentage, clamped. -/
def normX (r : Rect) (clientX : ℚ) : ℚ :=
  clampPct ((clientX - r.left) / r.width * 100)

/-- The y normalisation of `handlePointerMove`. -/
def normY (r : Rect) (clientY : ℚ) : ℚ :=
  clampPct ((clientY - r.top) / r.height * 100)

/-- `handlePointerMove` of `CanvasEditor`: with no active drag the list
is untouched; with an active drag every annotation whose id matches the
dragged id receives the normalised clamped coordinates, every other
annotation is unchanged. -/
def handlePointerMove (draggingId : Option String) (r : Rect) (clientX clientY : ℚ) (anns : List Annot) : List Annot :=
  match draggingId with
  | none => anns
  | some did =>
      anns.map (fun a => if a.id = did then { a with x := normX r clientX, y := normY r clientY } else a)

/-- The state of the canvas controller component: annotation list, the
text typed for a pending annotation, the pending click position, and the
active drag target. -/
structure CanvasState where
  annots : List Annot
  tempLabel : String
  pendingClick : Option (ℚ × ℚ)
  draggingId : Option String
deriving DecidableEq

/-- `addAnnotation` of `CanvasEditor`, with the timestamp made explicit:
when a pending position exists and the typed label is non-blank after
trimming, append one annotation carrying the pending coordinates, the
trimmed label and a fresh timestamp id, then clear the label and the
pending position; otherwise do nothing. -/
def addAnnot (c : CanvasState) (t : Nat) : CanvasState :=
  match c.pendingClick with
  | none => c
  | some p =>
      if jsTrim c.tempLabel = "" then c
      else
        { c with
          annots := c.annots ++ [{ id := toString t, x := p.1, y := p.2, label := jsTrim c.tempLabel }]
          tempLabel := ""
          pendingClick := none }

/-- One completed user-level operation of the coordinator: an upload with
its detection outcome, a generate or edit with its service outcome, or
typing into one of the two text fields. -/
inductive Event where
  | upload : String → DetectResponse → Nat → Event
  | generate : Except String String → Event
  | edit : Except String String → Event
  | setStyle : String → Event
  | setEdit : String → Event

/-- The transition function of the coordinator over completed
operations. -/
def step (s : AppState) (e : Event) : AppState :=
  match e with
  | .upload b resp t => handleFileUploadComplete s b resp t
  | .generate outcome => (handleGenerate s outcome).1
  | .edit outcome => (handleEdit s outcome).1
  | .setStyle txt => { s with stylePrompt := txt }
  | .setEdit txt => { s with editPrompt := txt }

/-- The states of the coordinator reachable at rest: the initial state,
closed under completed operations. -/
inductive Reachable : AppState → Prop where
  | init : Reachable initState
  | next : ∀ {s : AppState}, Reachable s → ∀ e : Event, Reachable (step s e)

/-! ## Helper lemmas

Injectivity of the decimal representation of natural numbers, needed to
show that the synthetic detection ids are pairwise distinct. -/

/-- Decimal digit characters of a natural number, most significant
first. -/
def repChars (n : Nat) : List Char :=
  if _h : n < 10 then [Nat.digitChar n]
  else repChars (n / 10) ++ [Nat.digitChar (n % 10)]
decreasing_by
  exact Nat.div_lt_self (by omega) (by omega)

lemma toDigitsCore_eq_repChars :
    ∀ (f n : Nat) (ds : List Char), n < f →
      Nat.toDigitsCore 10 f n ds = repChars n ++ ds := by
  intro f
  induction f with
  | zero => intro n ds h; omega
  | succ f ih =>
      intro n ds h
      by_cases h10 : n / 10 = 0
      · have hn : n < 10 := by omega
        simp only [Nat.toDigitsCore, h10, if_true]
        rw [repChars]
        simp [hn, Nat.mod_eq_of_lt hn]
      · have hlt : n / 10 < f := by
          have := Nat.div_lt_self (by omega : 0 < n) (by omega : 1 < 10)
          omega
        simp only [Nat.toDigitsCore, h10, if_false]
        rw [ih (n / 10) _ hlt]
        have hn : ¬ n < 10 := by
          intro hc
          exact h10 (Nat.div_eq_of_lt hc)
        conv_rhs => rw [repChars]
        simp [hn]

/-- The numeric value step for one decimal digit character. -/
def charVal (a : Nat) (c : Char) : Nat := 10 * a + (c.toNat - 48)

lemma digitChar_val : ∀ d, d < 10 → (Nat.digitChar d).toNat - 48 = d := by decide

lemma foldl_repChars (n : Nat) : List.foldl charVal 0 (repChars n) = n := by
  induction n using Nat.strong_induction_on with
  | _ n ih =>
      by_cases h : n < 10
      · rw [repChars]
        simp [h, charVal, digitChar_val n h]
      · rw [repChars]
        simp only [h, dite_false, List.foldl_append]
        rw [ih (n / 10) (Nat.div_lt_self (by omega) (by omega))]
        simp [charVal, digitChar_val (n % 10) (Nat.mod_lt n (by omega))]
        omega

lemma natRepr_injective : Function.Injective Nat.repr := by
  intro m n h
  have hd : Nat.toDigits 10 m = Nat.toDigits 10 n := by
    have := congrArg String.data h
    simpa [Nat.repr, List.asString] using this
  have hm : Nat.toDigits 10 m = repChars m := by
    simpa using toDigitsCore_eq_repChars (m + 1) m [] (by omega)
  have hn : Nat.toDigits 10 n = repChars n := by
    simpa using toDigitsCore_eq_repChars (n + 1) n [] (by omega)
  have hrep : repChars m = repChars n := by rw [← hm, ← hn, hd]
  have := congrArg (List.foldl charVal 0) hrep
  rwa [foldl_repChars, foldl_repChars] at this

lemma mkAutoId_injective (t : Nat) : Function.Injective (mkAutoId t) := by
  intro i j h
  have hd := congrArg String.data h
  simp only [mkAutoId, String.data_append] at hd
  have h2 := List.append_cancel_left hd
  have : Nat.repr i = Nat.repr j := by
    apply String.ext
    simpa [toString] using h2
  exact natRepr_injective this

/-- The generation state after one completed upload: `resultImage` and
`error` are cleared, while `isLoading` is spread from the previous value;
the annotation list afterwards holds exactly the detection result. -/
lemma upload_effect (s : AppState) (b : String) (resp : DetectResponse) (t : Nat) :
    (handleFileUploadComplete s b resp t).genState =
      { isLoading := s.genState.isLoading, resultImage := none, error := none } ∧
    (handleFileUploadComplete s b resp t).annots = detectUVParts resp t ∧
    (handleFileUploadComplete s b resp t).uvImage = some b ∧
    (handleFileUploadComplete s b resp t).stylePrompt = s.stylePrompt ∧
    (handleFileUploadComplete s b resp t).editPrompt = s.editPrompt ∧
    (handleFileUploadComplete s b resp t).isDetecting = false := by
  by_cases h : (detectUVParts resp t).length > 0
  · simp [handleFileUploadComplete, uploadReset, h]
  · have hnil : detectUVParts resp t = [] := by
      simpa using List.eq_nil_of_length_eq_zero (by omega)
    simp [handleFileUploadComplete, uploadReset, h, hnil]

lemma handleGenerate_notLoading (s : AppState) (o : Except String String)
    (h : s.genState.isLoading = false) :
    ((handleGenerate s o).1.genState.isLoading = false) := by
  match hu : s.uvImage with
  | none => simpa [handleGenerate, hu] using h
  | some img =>
      by_cases hb : jsTrim s.stylePrompt = ""
      · simpa [handleGenerate, hu, hb] using h
      · cases o <;> simp [handleGenerate, hu, hb]

lemma handleEdit_notLoading (s : AppState) (o : Except String String)
    (h : s.genState.isLoading = false) :
    ((handleEdit s o).1.genState.isLoading = false) := by
  match hr : s.genState.resultImage with
  | none => simpa [handleEdit, hr] using h
  | some r =>
      by_cases hb : jsTrim s.editPrompt = ""
      · simpa [handleEdit, hr, hb] using h
      · cases o <;> simp [handleEdit, hr, hb]

lemma reachable_notLoading {s : AppState} (h : Reachable s) :
    s.genState.isLoading = false := by
  induction h with
  | init => rfl
  | next hr e ih =>
      cases e with
      | upload b resp t => simpa [step] using ((upload_effect _ b resp t).1 ▸ ih)
      | generate o => exact handleGenerate_notLoading _ o ih
      | edit o => exact handleEdit_notLoading _ o ih
      | setStyle txt => simpa [step] using ih
      | setEdit txt => simpa [step] using ih

/-! ## Claims -/

/-- C1, counterexample: in a state holding a prior successful result
image, a failing generate call does not leave that result untouched — the
handler clears it when loading starts and the failure branch stores
`resultImage: null`. -/
theorem generate_failure_prior_result_cleared_cex :
    ({ uvImage := some "img", annots := [], stylePrompt := "cyberpunk", editPrompt := "",
       isDetecting := false,
       genState := { isLoading := false, resultImage := some "R", error := none } } : AppState).genState.resultImage
      = some "R" ∧
    (handleGenerate
      { uvImage := some "img", annots := [], stylePrompt := "cyberpunk", editPrompt := "",
        isDetecting := false,
        genState := { isLoading := false, resultImage := some "R", error := none } }
      (Except.error "quota exceeded")).1.genState.resultImage = none := by
  constructor
  · rfl
  · simp [handleGenerate, jsTrim]

/-- C1, amended: when the external call of a generate invocation fails,
the resulting generation state has `isLoading` false, the service message
(or the generic fallback) as error, and `resultImage` null regardless of
any prior result, since the handler clears the previous result when
loading starts. -/
theorem generate_failure_state (s : AppState) (img msg : String)
    (h1 : s.uvImage = some img) (h2 : jsTrim s.stylePrompt ≠ "") :
    (handleGenerate s (Except.error msg)).1.genState =
      { isLoading := false, resultImage := none,
        error := some (jsOrDefault msg "Ошибка генерации") } ∧
    (handleGenerate s (Except.error msg)).2 = true := by
  simp [handleGenerate, h1, h2]

theorem generate_failure_state_witness :
    jsTrim "cyberpunk" ≠ "" ∧
    (handleGenerate
      { uvImage := some "img", annots := [], stylePrompt := "cyberpunk", editPrompt := "",
        isDetecting := false,
        genState := { isLoading := false, resultImage := none, error := none } }
      (Except.error "quota exceeded")).1.genState =
      { isLoading := false, resultImage := none, error := some "quota exceeded" } :=
  ⟨by decide,
   by
    have h := generate_failure_state
      { uvImage := some "img", annots := [], stylePrompt := "cyberpunk", editPrompt := "",
        isDetecting := false,
        genState := { isLoading := false, resultImage := none, error := none } }
      "img" "quota exceeded" rfl (by decide)
    simpa [jsOrDefault] using h.1⟩

/-- C2, counterexample: a completed upload does not always leave the
generation state equal to the fully reset triple — the handler spreads
the previous state, so a true `isLoading` survives the upload. -/
theorem upload_reset_isLoading_cex :
    (handleFileUploadComplete
      { uvImage := some "old", annots := [], stylePrompt := "", editPrompt := "",
        isDetecting := false,
        genState := { isLoading := true, resultImage := some "R", error := none } }
      "img" DetectResponse.raises 0).genState ≠
      { isLoading := false, resultImage := none, error := none } := by
  simp [handleFileUploadComplete, uploadReset, detectUVParts]

/-- C2, amended: a completed upload clears `resultImage` and `error` and
replaces the annotation list with exactly the detection result (in
particular the old list is discarded, and the list is empty whenever
detection fails or yields nothing), but `isLoading` is spread from the
prior state rather than forced to false; for every prior state whose
`isLoading` is false — every state at rest — the resulting generation
state is exactly the reset triple. -/
theorem upload_resets_generation_state (s : AppState) (b : String) (resp : DetectResponse) (t : Nat) :
    (handleFileUploadComplete s b resp t).genState =
      { isLoading := s.genState.isLoading, resultImage := none, error := none } ∧
    (handleFileUploadComplete s b resp t).annots = detectUVParts resp t := by
  exact ⟨(upload_effect s b resp t).1, (upload_effect s b resp t).2.1⟩

/-- C3 (code bug): the coordinator does not reject every trigger while
`isLoading` is true.  Evaluated at the failing input — an edit in flight
(`isLoading` true, result image present, non-blank instruction) with the
edit handler invoked again through the Enter key of the edit field, which
is not gated — the handler passes its guard, changes the state and
issues a second external call. -/
theorem edit_trigger_during_loading_not_rejected :
    ({ uvImage := some "img", annots := [], stylePrompt := "style", editPrompt := "make it red",
       isDetecting := false,
       genState := { isLoading := true, resultImage := some "R", error := none } } : AppState).genState.isLoading
      = true ∧
    (handleEdit
      { uvImage := some "img", annots := [], stylePrompt := "style", editPrompt := "make it red",
        isDetecting := false,
        genState := { isLoading := true, resultImage := some "R", error := none } }
      (Except.ok "R2")).2 = true ∧
    (handleEdit
      { uvImage := some "img", annots := [], stylePrompt := "style", editPrompt := "make it red",
        isDetecting := false,
        genState := { isLoading := true, resultImage := some "R", error := none } }
      (Except.ok "R2")).1 ≠
      { uvImage := some "img", annots := [], stylePrompt := "style", editPrompt := "make it red",
        isDetecting := false,
        genState := { isLoading := true, resultImage := some "R", error := none } } := by
  refine ⟨rfl, ?_, ?_⟩
  · simp [handleEdit, jsTrim]
  · simp [handleEdit, jsTrim]

/-- C4: a generate invocation with a blank style description issues no
external call, stores the validation message as the error, and leaves
every other component of the state unchanged. -/
theorem generate_blank_style_validation (s : AppState) (o : Except String String) (img : String)
    (h1 : s.uvImage = some img) (h2 : jsTrim s.stylePrompt = "") :
    (handleGenerate s o).2 = false ∧
    (handleGenerate s o).1.genState.error = some "Пожалуйста, опишите стиль текстуры." ∧
    (handleGenerate s o).1.genState.isLoading = s.genState.isLoading ∧
    (handleGenerate s o).1.genState.resultImage = s.genState.resultImage ∧
    (handleGenerate s o).1.annots = s.annots ∧
    (handleGenerate s o).1.uvImage = s.uvImage ∧
    (handleGenerate s o).1.stylePrompt = s.stylePrompt ∧
    (handleGenerate s o).1.editPrompt = s.editPrompt := by
  simp [handleGenerate, h1, h2]

theorem generate_blank_style_validation_witness :
    jsTrim "   " = "" ∧
    (handleGenerate
      { uvImage := some "img", annots := [], stylePrompt := "   ", editPrompt := "",
        isDetecting := false,
        genState := { isLoading := false, resultImage := some "R", error := none } }
      (Except.ok "new")).2 = false ∧
    (handleGenerate
      { uvImage := some "img", annots := [], stylePrompt := "   ", editPrompt := "",
        isDetecting := false,
        genState := { isLoading := false, resultImage := some "R", error := none } }
      (Except.ok "new")).1.genState.resultImage = some "R" :=
  ⟨by decide,
   by
    have h := generate_blank_style_validation
      { uvImage := some "img", annots := [], stylePrompt := "   ", editPrompt := "",
        isDetecting := false,
        genState := { isLoading := false, resultImage := some "R", error := none } }
      (Except.ok "new") "img" rfl (by decide)
    exact h.1,
   by
    have h := generate_blank_style_validation
      { uvImage := some "img", annots := [], stylePrompt := "   ", editPrompt := "",
        isDetecting := false,
        genState := { isLoading := false, resultImage := some "R", error := none } }
      (Except.ok "new") "img" rfl (by decide)
    exact h.2.2.2.1⟩

/-- C6: when the external call of an edit invocation fails, the resulting
generation state retains the prior result image unchanged, stores the
failure message (or the generic fallback) as the error, and clears the
loading flag. -/
theorem edit_failure_preserves_result (s : AppState) (r msg : String)
    (h1 : s.genState.resultImage = some r) (h2 : jsTrim s.editPrompt ≠ "") :
    (handleEdit s (Except.error msg)).1.genState =
      { isLoading := false, resultImage := some r,
        error := some (jsOrDefault msg "Ошибка редактирования") } ∧
    (handleEdit s (Except.error msg)).2 = true := by
  simp [handleEdit, h1, h2]

theorem edit_failure_preserves_result_witness :
    jsTrim "make it red" ≠ "" ∧
    (handleEdit
      { uvImage := some "img", annots := [], stylePrompt := "style", editPrompt := "make it red",
        isDetecting := false,
        genState := { isLoading := false, resultImage := some "R", error := none } }
      (Except.error "service down")).1.genState =
      { isLoading := false, resultImage := some "R", error := some "service down" } :=
  ⟨by decide,
   by
    have h := edit_failure_preserves_result
      { uvImage := some "img", annots := [], stylePrompt := "style", editPrompt := "make it red",
        isDetecting := false,
        genState := { isLoading := false, resultImage := some "R", error := none } }
      "R" "service down" rfl (by decide)
    simpa [jsOrDefault] using h.1⟩

/-- C10: a completed upload leaves the style-description text and the
edit-instruction text unchanged (and spreads the loading flag), touching
only the source image, the annotation list, the result and error fields
and the transient detecting flag. -/
theorem upload_preserves_prompts (s : AppState) (b : String) (resp : DetectResponse) (t : Nat) :
    (handleFileUploadComplete s b resp t).stylePrompt = s.stylePrompt ∧
    (handleFileUploadComplete s b resp t).editPrompt = s.editPrompt ∧
    (handleFileUploadComplete s b resp t).genState.isLoading = s.genState.isLoading := by
  refine ⟨(upload_effect s b resp t).2.2.2.1, (upload_effect s b resp t).2.2.2.2.1, ?_⟩
  rw [(upload_effect s b resp t).1]

/-- C5: the detection operation never raises — a raising call, a missing
response text, a malformed response and an empty output all resolve to
the empty annotation list — and a well-formed response is mapped to one
annotation per record, carrying the record fields and pairwise-distinct
fresh synthetic ids. -/
theorem detect_failures_empty_and_mapping (t : Nat) (records : List DetectRecord) :
    detectUVParts DetectResponse.raises t = [] ∧
    detectUVParts DetectResponse.noText t = [] ∧
    detectUVParts DetectResponse.badParse t = [] ∧
    detectUVParts (DetectResponse.ok []) t = [] ∧
    (detectUVParts (DetectResponse.ok records) t).length = records.length ∧
    (∀ (i : Nat) (rec : DetectRecord), records[i]? = some rec →
      (detectUVParts (DetectResponse.ok records) t)[i]? =
        some { id := mkAutoId t i, x := rec.x, y := rec.y, label := rec.label }) ∧
    ((detectUVParts (DetectResponse.ok records) t).map (fun a => a.id)).Nodup := by
  refine ⟨rfl, rfl, rfl, rfl, ?_, ?_, ?_⟩
  · simp [detectUVParts]
  · intro i rec hi
    simp [detectUVParts, List.getElem?_map, List.getElem?_enum, hi]
  · have hids : (detectUVParts (DetectResponse.ok records) t).map (fun a => a.id) =
        (List.range records.length).map (mkAutoId t) := by
      rw [← List.enum_map_fst records, detectUVParts, List.map_map, List.map_map]
      rfl
    rw [hids]
    exact (List.nodup_range _).map (mkAutoId_injective t)

theorem detect_failures_empty_and_mapping_witness :
    ([⟨"Face", 82, 20⟩, ⟨"Torso", 50, 50⟩] : List DetectRecord)[1]? = some ⟨"Torso", 50, 50⟩ ∧
    (detectUVParts (DetectResponse.ok [⟨"Face", 82, 20⟩, ⟨"Torso", 50, 50⟩]) 7)[1]? =
      some { id := "auto-7-1", x := 50, y := 50, label := "Torso" } ∧
    detectUVParts DetectResponse.raises 7 = [] := by
  have h := detect_failures_empty_and_mapping 7 [⟨"Face", 82, 20⟩, ⟨"Torso", 50, 50⟩]
  refine ⟨rfl, ?_, h.1⟩
  have h2 := h.2.2.2.2.2.1 1 ⟨"Torso", 50, 50⟩ rfl
  rw [h2]
  rfl

/-- C7: during an active drag the normalised coordinates always land in
the interval from 0 to 100; a pointer beyond an edge of the rectangle is
pinned to exactly 0 or exactly 100 on the overflowing axis, independently
per axis; and only annotations carrying the dragged id receive the new
coordinates, every other annotation being unchanged. -/
theorem drag_update_clamps_and_frames (r : Rect) (cx cy : ℚ) (did : String) (anns : List Annot)
    (hw : 0 < r.width) (hh : 0 < r.height) :
    (0 ≤ normX r cx ∧ normX r cx ≤ 100 ∧ 0 ≤ normY r cy ∧ normY r cy ≤ 100) ∧
    (cx < r.left → normX r cx = 0) ∧
    (r.left + r.width < cx → normX r cx = 100) ∧
    (cy < r.top → normY r cy = 0) ∧
    (r.top + r.height < cy → normY r cy = 100) ∧
    (∀ (i : Nat) (a : Annot), anns[i]? = some a →
      (handlePointerMove (some did) r cx cy anns)[i]? =
        some (if a.id = did then { a with x := normX r cx, y := normY r cy } else a)) := by
  have hbounds : ∀ v : ℚ, 0 ≤ clampPct v ∧ clampPct v ≤ 100 := by
    intro v
    constructor
    · exact le_max_left 0 _
    · exact max_le (by norm_num) (min_le_left _ _)
  have hlow : ∀ v : ℚ, v < 0 → clampPct v = 0 := by
    intro v hv
    rw [clampPct, min_eq_right (le_of_lt (lt_of_lt_of_le hv (by norm_num)))]
    exact max_eq_left (le_of_lt hv)
  have hhigh : ∀ v : ℚ, 100 < v → clampPct v = 100 := by
    intro v hv
    rw [clampPct, min_eq_left (le_of_lt hv)]
    exact max_eq_right (by norm_num)
  refine ⟨⟨(hbounds _).1, (hbounds _).2, (hbounds _).1, (hbounds _).2⟩, ?_, ?_, ?_, ?_, ?_⟩
  · intro hcx
    apply hlow
    have h1 : cx - r.left < 0 := by linarith
    have h2 : (cx - r.left) / r.width < 0 := div_neg_of_neg_of_pos h1 hw
    nlinarith
  · intro hcx
    apply hhigh
    have h1 : (1 : ℚ) < (cx - r.left) / r.width := (one_lt_div hw).mpr (by linarith)
    nlinarith
  · intro hcy
    apply hlow
    have h1 : cy - r.top < 0 := by linarith
    have h2 : (cy - r.top) / r.height < 0 := div_neg_of_neg_of_pos h1 hh
    nlinarith
  · intro hcy
    apply hhigh
    have h1 : (1 : ℚ) < (cy - r.top) / r.height := (one_lt_div hh).mpr (by linarith)
    nlinarith
  · intro i a hi
    simp [handlePointerMove, List.getElem?_map, hi]

theorem drag_update_clamps_and_frames_witness :
    (0 : ℚ) < 200 ∧ (0 : ℚ) < 100 ∧
    normX ⟨0, 0, 200, 100⟩ (-5) = 0 ∧
    normY ⟨0, 0, 200, 100⟩ 150 = 100 ∧
    (handlePointerMove (some "a") ⟨0, 0, 200, 100⟩ (-5) 150
      [⟨"a", 10, 10, "Face"⟩, ⟨"b", 20, 20, "Torso"⟩])[0]? =
      some ⟨"a", normX ⟨0, 0, 200, 100⟩ (-5), normY ⟨0, 0, 200, 100⟩ 150, "Face"⟩ ∧
    (handlePointerMove (some "a") ⟨0, 0, 200, 100⟩ (-5) 150
      [⟨"a", 10, 10, "Face"⟩, ⟨"b", 20, 20, "Torso"⟩])[1]? =
      some ⟨"b", 20, 20, "Torso"⟩ := by
  have h := drag_update_clamps_and_frames ⟨0, 0, 200, 100⟩ (-5) 150 "a"
    [⟨"a", 10, 10, "Face"⟩, ⟨"b", 20, 20, "Torso"⟩] (by norm_num) (by norm_num)
  refine ⟨by norm_num, by norm_num, h.2.1 (by norm_num), h.2.2.2.2.1 (by norm_num), ?_, ?_⟩
  · have h5 := h.2.2.2.2.2 0 ⟨"a", 10, 10, "Face"⟩ rfl
    simpa using h5
  · have h6 := h.2.2.2.2.2 1 ⟨"b", 20, 20, "Torso"⟩ rfl
    simpa using h6

/-- C8: committing the pending annotation is a strict no-op when the
typed label is blank after trimming or when no pending position exists;
otherwise exactly one annotation is appended, carrying the pending
coordinates, the trimmed label and the fresh timestamp id, and the label
and pending position are cleared. -/
theorem commit_pending_spec (c : CanvasState) (t : Nat) :
    (jsTrim c.tempLabel = "" → addAnnot c t = c) ∧
    (c.pendingClick = none → addAnnot c t = c) ∧
    (∀ p : ℚ × ℚ, c.pendingClick = some p → jsTrim c.tempLabel ≠ "" →
      addAnnot c t =
        { c with
          annots := c.annots ++ [{ id := toString t, x := p.1, y := p.2, label := jsTrim c.tempLabel }]
          tempLabel := ""
          pendingClick := none }) := by
  refine ⟨?_, ?_, ?_⟩
  · intro hb
    cases hp : c.pendingClick <;> simp [addAnnot, hp, hb]
  · intro hp
    simp [addAnnot, hp]
  · intro p hp hb
    simp [addAnnot, hp, hb]

theorem commit_pending_spec_witness :
    jsTrim "   " = "" ∧
    addAnnot { annots := [], tempLabel := "   ", pendingClick := some (10, 20), draggingId := none } 5 =
      { annots := [], tempLabel := "   ", pendingClick := some (10, 20), draggingId := none } ∧
    jsTrim "  Face " ≠ "" ∧
    (addAnnot { annots := [], tempLabel := "  Face ", pendingClick := some (10, 20), draggingId := none } 5).annots =
      [{ id := "5", x := 10, y := 20, label := "Face" }] := by
  refine ⟨by decide, ?_, by decide, ?_⟩
  · exact (commit_pending_spec _ 5).1 (by decide)
  · have h := (commit_pending_spec
      { annots := [], tempLabel := "  Face ", pendingClick := some (10, 20), draggingId := none } 5).2.2
      (10, 20) rfl (by decide)
    rw [h]
    rfl

/-- C9: in every coordinator state reachable at rest, a true loading flag
and a non-null error never hold simultaneously — indeed the loading flag
is false in every state at rest. -/
theorem rest_loading_excludes_error (s : AppState) (h : Reachable s) :
    ¬ (s.genState.isLoading = true ∧ s.genState.error ≠ none) := by
  intro hc
  rw [reachable_notLoading h] at hc
  exact Bool.false_ne_true hc.1

theorem rest_loading_excludes_error_witness :
    ¬ (initState.genState.isLoading = true ∧ initState.genState.error ≠ none) :=
  rest_loading_excludes_error initState Reachable.init

end Vitlos
